import Mathlib

/-!
Verification of `src/agents/log-metrics.py` (the Jobster metrics-logging
agent) against its specification.  The script is embedded shallowly:

* `Json` models Python values produced by `json.loads` (dicts are
  insertion-ordered association lists, numbers are rationals);
* `jsonLoads` models the standard-library JSON parser on the JSON core
  (objects, arrays, strings with the common escapes, numbers, literals);
* `pyInt` models Python `int(str)`;
* `fromisoformat` models `datetime.fromisoformat` on the dashed
  `YYYY-MM-DD[sep]HH[:MM[:SS[.frac]]][+HH:MM]` forms it accepts;
* `run` is the line-by-line embedding of `main()`: it consumes the
  environment and a `World` (capture time, filesystem outcomes) and
  returns the observable `Effects` (exit status, stdout/stderr JSON
  objects, directory creation, lines appended to `metrics.jsonl`).
  `exit = none` stands for an uncaught Python exception (non-zero exit,
  unstructured diagnostic on stderr).
-/

/-- Opening curly-brace character, used when scanning JSON text. -/
def lbrace : Char := Char.ofNat 123

/-- Closing curly-brace character, used when scanning JSON text. -/
def rbrace : Char := Char.ofNat 125

/-- Model of a parsed Python JSON value (`json.loads` result).  Objects are
insertion-ordered association lists, mirroring Python dicts; numbers are
rationals (Python ints and floats are not distinguished). -/
inductive Json where
  | null
  | bool (b : Bool)
  | num (q : Rat)
  | str (s : String)
  | arr (xs : List Json)
  | obj (kvs : List (String × Json))
deriving Repr

/-- Python truthiness (`bool(x)`) of a JSON-derived value: `None`, `False`,
zero, and empty strings/lists/dicts are falsy. -/
def Json.truthy : Json → Bool
  | .null => false
  | .bool b => b
  | .num q => q != 0
  | .str s => s != ""
  | .arr xs => !xs.isEmpty
  | .obj kvs => !kvs.isEmpty

/-- First value stored under key `k` in an association list (keys are unique
in lists built by `dictInsert`, so this is dict lookup). -/
def getKeyL : List (String × Json) → String → Option Json
  | [], _ => none
  | (k2, v) :: rest, k => if k2 == k then some v else getKeyL rest k

/-- Value of key `k` of a JSON object, if any. -/
def Json.getKey : Json → String → Option Json
  | .obj kvs, k => getKeyL kvs k
  | _, _ => none

/-- Whether a JSON object has key `k`. -/
def Json.hasKey (j : Json) (k : String) : Bool :=
  (j.getKey k).isSome

/-- Python-dict insertion: overwriting an existing key keeps its position,
a new key goes to the end (used for duplicate keys in JSON objects). -/
def dictInsert (kvs : List (String × Json)) (k : String) (v : Json) :
    List (String × Json) :=
  if kvs.any (fun p => p.1 == k) then
    kvs.map (fun p => if p.1 == k then (k, v) else p)
  else
    kvs ++ [(k, v)]

/-- JSON whitespace characters skipped by the parser. -/
def jsonWs (c : Char) : Bool :=
  c == ' ' || c == '\t' || c == '\n' || c == '\r'

/-- Drop leading JSON whitespace. -/
def skipWs : List Char → List Char
  | [] => []
  | c :: cs => if jsonWs c then skipWs cs else c :: cs

/-- Decimal digit value of a character, if it is a digit. -/
def digit? (c : Char) : Option Nat :=
  if '0' ≤ c ∧ c ≤ '9' then some (c.toNat - '0'.toNat) else none

/-- Hexadecimal digit value of a character, if it is a hex digit. -/
def hexDigit? (c : Char) : Option Nat :=
  if '0' ≤ c ∧ c ≤ '9' then some (c.toNat - '0'.toNat)
  else if 'a' ≤ c ∧ c ≤ 'f' then some (c.toNat - 'a'.toNat + 10)
  else if 'A' ≤ c ∧ c ≤ 'F' then some (c.toNat - 'A'.toNat + 10)
  else none

/-- Greedily consume decimal digits, returning their value, how many there
were, and the rest of the input. -/
def takeDigits : List Char → Nat × Nat × List Char
  | [] => (0, 0, [])
  | c :: cs =>
    match digit? c with
    | some d =>
      let (v, n, rest) := takeDigits cs
      (d * 10 ^ n + v, n + 1, rest)
    | none => (0, 0, c :: cs)

/-- Prepend a character to a string. -/
def consStr (c : Char) (s : String) : String := ⟨c :: s.data⟩

/-- Single-character JSON escape codes (`\" \\ \/ \b \f \n \r \t`). -/
def escChar (e : Char) : Option Char :=
  if e == '"' then some '"'
  else if e == '\\' then some '\\'
  else if e == '/' then some '/'
  else if e == 'b' then some (Char.ofNat 8)
  else if e == 'f' then some (Char.ofNat 12)
  else if e == 'n' then some '\n'
  else if e == 'r' then some '\r'
  else if e == 't' then some '\t'
  else none

/-- Parse the body of a JSON string literal (the opening quote already
consumed) in strict mode: raw control characters are rejected, `\uXXXX`
escapes are decoded with surrogate pairs combined (lone surrogates are
outside this model).  Fuel-indexed; `length + 1` fuel always suffices. -/
def parseJString : Nat → List Char → Option (String × List Char)
  | 0, _ => none
  | _ + 1, [] => none
  | fuel + 1, c :: cs =>
    if c == '"' then some ("", cs)
    else if c == '\\' then
      match cs with
      | [] => none
      | e :: cs2 =>
        if e == 'u' then
          match cs2 with
          | h1 :: h2 :: h3 :: h4 :: cs3 =>
            match hexDigit? h1, hexDigit? h2, hexDigit? h3, hexDigit? h4 with
            | some a, some b, some c3, some d =>
              let code := ((a * 16 + b) * 16 + c3) * 16 + d
              if 0xD800 ≤ code ∧ code ≤ 0xDBFF then
                match cs3 with
                | '\\' :: 'u' :: g1 :: g2 :: g3 :: g4 :: cs4 =>
                  match hexDigit? g1, hexDigit? g2, hexDigit? g3, hexDigit? g4 with
                  | some a2, some b2, some c2, some d2 =>
                    let code2 := ((a2 * 16 + b2) * 16 + c2) * 16 + d2
                    if 0xDC00 ≤ code2 ∧ code2 ≤ 0xDFFF then do
                      let (s, rest) ← parseJString fuel cs4
                      let ch := Char.ofNat
                        (0x10000 + (code - 0xD800) * 0x400 + (code2 - 0xDC00))
                      return (consStr ch s, rest)
                    else none
                  | _, _, _, _ => none
                | _ => none
              else if 0xDC00 ≤ code ∧ code ≤ 0xDFFF then none
              else do
                let (s, rest) ← parseJString fuel cs3
                return (consStr (Char.ofNat code) s, rest)
            | _, _, _, _ => none
          | _ => none
        else
          match escChar e with
          | some ch => do
            let (s, rest) ← parseJString fuel cs2
            return (consStr ch s, rest)
          | none => none
    else if c.toNat < 0x20 then none
    else do
      let (s, rest) ← parseJString fuel cs
      return (consStr c s, rest)

/-- Parse a JSON number, mirroring the scanner regular expression
`-?(0|[1-9]DIGITS)(.DIGITS)?([eE][+-]?DIGITS)?`: a maximal match is taken
and anything beyond it is left unconsumed.  The value is returned as a
rational (Python int/float are not distinguished in this model). -/
def parseNumber (cs : List Char) : Option (Rat × List Char) :=
  let (neg, cs1) :=
    match cs with
    | c :: rest => if c == '-' then (true, rest) else (false, cs)
    | [] => (false, ([] : List Char))
  match cs1 with
  | [] => none
  | c :: rest1 =>
    match digit? c with
    | none => none
    | some d0 =>
      let (iv, cs2) :=
        if c == '0' then ((d0 : Nat), rest1)
        else
          let (v, _, r) := takeDigits (c :: rest1)
          (v, r)
      let (fv, flen, cs3) :=
        match cs2 with
        | '.' :: rest2 =>
          let (v, n, r) := takeDigits rest2
          if n == 0 then (0, 0, cs2) else (v, n, r)
        | _ => (0, 0, cs2)
      let (ex, cs4) :=
        match cs3 with
        | e :: rest3 =>
          if e == 'e' || e == 'E' then
            let (esign, rest4) :=
              match rest3 with
              | s :: r => if s == '-' then ((-1 : Int), r)
                          else if s == '+' then ((1 : Int), r)
                          else (1, rest3)
              | [] => (1, rest3)
            let (v, n, r) := takeDigits rest4
            if n == 0 then ((0 : Int), cs3) else (esign * v, r)
          else ((0 : Int), cs3)
        | [] => ((0 : Int), cs3)
      let mant : Int := ((iv * 10 ^ flen + fv : Nat) : Int)
      let mant2 : Int := if neg then -mant else mant
      let q : Rat := mkRat (mant2 * 10 ^ ex.toNat) (10 ^ (flen + (-ex).toNat))
      some (q, cs4)

mutual

/-- Parse one JSON value (objects, arrays, strings, numbers, `true`,
`false`, `null`), fuel-indexed.  Models the strict-mode scanner of the
standard JSON parser on the JSON core (`NaN`/`Infinity` extensions are
outside this model). -/
def parseValue : Nat → List Char → Option (Json × List Char)
  | 0, _ => none
  | fuel + 1, cs =>
    match skipWs cs with
    | [] => none
    | c :: rest =>
      if c == lbrace then
        match skipWs rest with
        | c2 :: rest2 =>
          if c2 == rbrace then some (.obj [], rest2)
          else parseMembers fuel (c2 :: rest2) []
        | [] => none
      else if c == '[' then
        match skipWs rest with
        | c2 :: rest2 =>
          if c2 == ']' then some (.arr [], rest2)
          else parseItems fuel (c2 :: rest2) []
        | [] => none
      else if c == '"' then
        match parseJString (rest.length + 1) rest with
        | some (s, rest2) => some (.str s, rest2)
        | none => none
      else if c == 't' then
        match rest with
        | 'r' :: 'u' :: 'e' :: rest2 => some (.bool true, rest2)
        | _ => none
      else if c == 'f' then
        match rest with
        | 'a' :: 'l' :: 's' :: 'e' :: rest2 => some (.bool false, rest2)
        | _ => none
      else if c == 'n' then
        match rest with
        | 'u' :: 'l' :: 'l' :: rest2 => some (.null, rest2)
        | _ => none
      else
        match parseNumber (c :: rest) with
        | some (q, rest2) => some (.num q, rest2)
        | none => none

/-- Parse the members of a non-empty JSON object, starting at the first
key; duplicate keys overwrite in place as in a Python dict. -/
def parseMembers : Nat → List Char → List (String × Json) →
    Option (Json × List Char)
  | 0, _, _ => none
  | fuel + 1, cs, acc =>
    match skipWs cs with
    | c :: rest =>
      if c == '"' then
        match parseJString (rest.length + 1) rest with
        | some (k, rest2) =>
          match skipWs rest2 with
          | ':' :: rest3 =>
            match parseValue fuel rest3 with
            | some (v, rest4) =>
              let acc2 := dictInsert acc k v
              match skipWs rest4 with
              | ',' :: rest5 => parseMembers fuel rest5 acc2
              | c5 :: rest5 =>
                if c5 == rbrace then some (.obj acc2, rest5) else none
              | [] => none
            | none => none
          | _ => none
        | none => none
      else none
    | [] => none

/-- Parse the items of a non-empty JSON array, starting at the first
item. -/
def parseItems : Nat → List Char → List Json → Option (Json × List Char)
  | 0, _, _ => none
  | fuel + 1, cs, acc =>
    match parseValue fuel cs with
    | some (v, rest) =>
      let acc2 := acc ++ [v]
      match skipWs rest with
      | ',' :: rest2 => parseItems fuel rest2 acc2
      | c2 :: rest2 => if c2 == ']' then some (.arr acc2, rest2) else none
      | [] => none
    | none => none

end

/-- Model of Python `json.loads` on the JSON core: parse one value,
then require only whitespace to remain. -/
def jsonLoads (s : String) : Except String Json :=
  match parseValue (2 * s.length + 2) s.data with
  | some (v, rest) =>
    if (skipWs rest).isEmpty then .ok v else .error "Extra data"
  | none => .error "Expecting value"

/-- ASCII whitespace stripped by Python `int(str)`. -/
def pyWs (c : Char) : Bool :=
  c == ' ' || c == '\t' || c == '\n' || c == '\r' ||
    c == Char.ofNat 11 || c == Char.ofNat 12

/-- Strip leading and trailing whitespace from a character list. -/
def stripList (cs : List Char) : List Char :=
  ((cs.dropWhile pyWs).reverse.dropWhile pyWs).reverse

/-- Accumulate decimal digits allowing single underscores between digits
(PEP 515), as Python `int(str)` does after the optional sign. -/
def digitsUnd (acc : Nat) : List Char → Option Nat
  | [] => some acc
  | c :: rest =>
    match digit? c with
    | some d => digitsUnd (acc * 10 + d) rest
    | none =>
      if c == '_' then
        match rest with
        | c2 :: rest2 =>
          match digit? c2 with
          | some d2 => digitsUnd (acc * 10 + d2) rest2
          | none => none
        | [] => none
      else none

/-- Model of Python `int(str)` on ASCII input: optional surrounding
whitespace, optional sign, decimal digits with optional single
underscores between digits.  `none` models a `ValueError`. -/
def pyInt (s : String) : Option Int :=
  let cs := stripList s.data
  let (sign, cs1) : Int × List Char :=
    match cs with
    | c :: rest =>
      if c == '-' then (-1, rest)
      else if c == '+' then (1, rest)
      else (1, cs)
    | [] => (1, [])
  match cs1 with
  | [] => none
  | c :: _ =>
    match digit? c with
    | none => none
    | some _ => (digitsUnd 0 cs1).map (fun n => sign * (n : Int))

/-- A parsed Python `datetime`: microseconds since 1970-01-01T00:00:00 on
the proleptic Gregorian calendar, read without offset adjustment, plus the
UTC offset in seconds (`none` = naive). -/
structure PyDateTime where
  micros : Int
  tzOffset : Option Int
deriving Repr, DecidableEq

/-- Gregorian leap year. -/
def isLeap (y : Nat) : Bool :=
  (y % 4 == 0 && y % 100 != 0) || y % 400 == 0

/-- Days in a month of a given year. -/
def daysInMonth (y m : Nat) : Nat :=
  if m == 2 then (if isLeap y then 29 else 28)
  else if m == 4 || m == 6 || m == 9 || m == 11 then 30
  else 31

/-- Days in year `y` before the first day of month `m`. -/
def daysBeforeMonth (y m : Nat) : Nat :=
  (List.range (m - 1)).foldl (fun acc i => acc + daysInMonth y (i + 1)) 0

/-- Proleptic Gregorian ordinal of a date, with day 1 = 0001-01-01
(Python `date.toordinal`). -/
def toOrdinal (y m d : Nat) : Nat :=
  365 * (y - 1) + (y - 1) / 4 - (y - 1) / 100 + (y - 1) / 400 +
    daysBeforeMonth y m + d

/-- Microseconds since the epoch of a naive calendar reading
(`toOrdinal 1970 1 1 = 719163`). -/
def dtMicros (y mo d h mi se usec : Nat) : Int :=
  ((toOrdinal y mo d : Int) - 719163) * 86400000000 +
    ((h * 3600 + mi * 60 + se : Nat) : Int) * 1000000 + (usec : Int)

/-- Parse exactly `n` decimal digits. -/
def fixDigits : Nat → List Char → Option (Nat × List Char)
  | 0, cs => some (0, cs)
  | _ + 1, [] => none
  | n + 1, c :: cs => do
    let d ← digit? c
    let (v, rest) ← fixDigits n cs
    return (d * 10 ^ n + v, rest)

/-- Require character `c` at the head of the input. -/
def expectChar (c : Char) : List Char → Option (List Char)
  | [] => none
  | x :: xs => if x == c then some xs else none

/-- Optional `:MM[:SS[.f]]` part of an ISO time (minute, second,
microseconds, rest); 1 to 6 fractional digits are accepted. -/
def parseTimeTail (cs : List Char) : Option (Nat × Nat × Nat × List Char) :=
  match cs with
  | ':' :: cs2 => do
    let (mi, cs3) ← fixDigits 2 cs2
    match cs3 with
    | ':' :: cs4 => do
      let (se, cs5) ← fixDigits 2 cs4
      match cs5 with
      | '.' :: cs6 =>
        let (fv, n, cs7) := takeDigits cs6
        if 1 ≤ n ∧ n ≤ 6 then some (mi, se, fv * 10 ^ (6 - n), cs7)
        else none
      | _ => some (mi, se, 0, cs5)
    | _ => some (mi, 0, 0, cs3)
  | _ => some (0, 0, 0, cs)

/-- Optional trailing UTC offset `±HH:MM` (must consume the whole rest);
`some none` = naive, `some (some o)` = aware with offset `o` seconds. -/
def parseOffsetTail (cs : List Char) : Option (Option Int) :=
  match cs with
  | [] => some none
  | c :: cs2 =>
    if c == '+' || c == '-' then do
      let (oh, cs3) ← fixDigits 2 cs2
      let cs4 ← expectChar ':' cs3
      let (om, cs5) ← fixDigits 2 cs4
      if cs5.isEmpty ∧ oh ≤ 23 ∧ om ≤ 59 then
        some (some ((if c == '-' then (-1 : Int) else 1) *
          ((oh * 3600 + om * 60 : Nat) : Int)))
      else none
    else none

/-- Model of Python `datetime.fromisoformat` on its dashed core forms
`YYYY-MM-DD[sep HH[:MM[:SS[.f]]][±HH:MM]]` with field validation (`none`
models a `ValueError`). -/
def fromisoformat (s : String) : Option PyDateTime := do
  let cs0 := s.data
  let (y, cs1) ← fixDigits 4 cs0
  let cs2 ← expectChar '-' cs1
  let (mo, cs3) ← fixDigits 2 cs2
  let cs4 ← expectChar '-' cs3
  let (d, cs5) ← fixDigits 2 cs4
  if 1 ≤ y ∧ 1 ≤ mo ∧ mo ≤ 12 ∧ 1 ≤ d ∧ d ≤ daysInMonth y mo then
    match cs5 with
    | [] => some ⟨dtMicros y mo d 0 0 0 0, none⟩
    | _sep :: cs6 => do
      let (h, cs7) ← fixDigits 2 cs6
      let (mi, se, usec, cs8) ← parseTimeTail cs7
      let off ← parseOffsetTail cs8
      if h ≤ 23 ∧ mi ≤ 59 ∧ se ≤ 59 then
        some ⟨dtMicros y mo d h mi se usec, off⟩
      else none
  else none

/-- `(e - s).total_seconds()` on Python datetimes: defined when both are
naive or both aware (aware values compare by their UTC instants); `none`
models the `TypeError` raised on mixing naive and aware datetimes. -/
def subSeconds (e s : PyDateTime) : Option Rat :=
  match s.tzOffset, e.tzOffset with
  | none, none => some (mkRat (e.micros - s.micros) 1000000)
  | some o1, some o2 =>
    some (mkRat ((e.micros - o2 * 1000000) - (s.micros - o1 * 1000000))
      1000000)
  | _, _ => none

/-- The `Z` to `+00:00` replacement on the character list: every
occurrence of `Z` is replaced, exactly as Python `str.replace` does. -/
def replaceZChars : List Char → List Char
  | [] => []
  | c :: cs =>
    if c == 'Z' then
      '+' :: '0' :: '0' :: ':' :: '0' :: '0' :: replaceZChars cs
    else c :: replaceZChars cs

/-- The `Z` to `+00:00` replacement as applied to the timestamp
strings by the duration block. -/
def replaceZ (s : String) : String := ⟨replaceZChars s.data⟩

/-- Outcome of the duration-computation block of `main`. -/
inductive DurationOutcome where
  | typeErr
  | value (d : Option Rat)
deriving Repr, DecidableEq

/-- The duration block of `main` (lines 65-72): if both timestamp strings
are non-empty, replace every `Z` by `+00:00`, parse both, and subtract;
parse failures are swallowed (`ValueError` caught), while subtracting a
naive from an aware datetime raises an uncaught `TypeError`. -/
def durationStep (startTs endTs : String) : DurationOutcome :=
  if startTs != "" && endTs != "" then
    match fromisoformat (replaceZ startTs) with
    | none => .value none
    | some ds =>
      match fromisoformat (replaceZ endTs) with
      | none => .value none
      | some de =>
        match subSeconds de ds with
        | some q => .value (some q)
        | none => .typeErr
  else .value none

/-- Split a character list on `/`. -/
def splitSlash : List Char → List (List Char)
  | [] => [[]]
  | c :: cs =>
    if c == '/' then [] :: splitSlash cs
    else
      match splitSlash cs with
      | h :: t => (c :: h) :: t
      | [] => [[c]]

/-- `str(PurePosixPath(s))`: split on slashes, drop empty and `.` segments,
keep a root of `/` (or exactly `//`); the empty relative path prints as
`.`. -/
def posixPathStr (s : String) : String :=
  let segs := (splitSlash s.data).filter (fun t => !t.isEmpty && t != ['.'])
  let root :=
    match s.data with
    | '/' :: '/' :: '/' :: _ => "/"
    | '/' :: '/' :: _ => "//"
    | '/' :: _ => "/"
    | _ => ""
  if segs.isEmpty then (if root == "" then "." else root)
  else root ++ String.intercalate "/" (segs.map (fun t => (⟨t⟩ : String)))

/-- `str(Path(state_dir) / "metrics.jsonl")`. -/
def joinMetricsFile (sd : String) : String :=
  let base := posixPathStr sd
  if base == "." then "metrics.jsonl"
  else if base == "/" || base == "//" then base ++ "metrics.jsonl"
  else base ++ "/metrics.jsonl"

/-- The process environment as read by the agent: each field is the value
of the corresponding environment variable (`none` = unset).  Field order:
`CONFIG_JSON`, `STATE_DIR`, `JOB_ID`, `RUN_ID`, `HOOK`, `JOB_COMMAND`,
`JOB_SCHEDULE`, `START_TS`, `END_TS`, `EXIT_CODE`, `ATTEMPT`. -/
structure Env where
  config_json : Option String
  state_dir : Option String
  job_id : Option String
  run_id : Option String
  hook : Option String
  job_command : Option String
  job_schedule : Option String
  start_ts : Option String
  end_ts : Option String
  exit_code : Option String
  attempt : Option String
deriving Repr, DecidableEq

/-- Everything outside the agent that the run observes: the capture-time
string `datetime.utcnow().isoformat()` and the outcomes of the two
filesystem operations (`some msg` = the operation raises with message
`msg`, `none` = it succeeds). -/
structure World where
  now : String
  mkdirError : Option String
  writeError : Option String
deriving Repr, DecidableEq

/-- Observable effects of one invocation.  `exit = some c` is a clean
`sys.exit(c)`; `exit = none` models an uncaught Python exception
(non-zero status, unstructured traceback on stderr).  `out`/`err` are the
JSON objects printed to stdout/stderr, `dirCreated` says whether
`STATE_DIR` (with parents) was created or confirmed by `mkdir`, and
`appended` lists the records appended to `metrics.jsonl`, each serialized
as one newline-terminated JSON line. -/
structure Effects where
  exit : Option Nat
  out : List Json
  err : List Json
  dirCreated : Bool
  appended : List Json
deriving Repr

/-- The `CONFIG_JSON` string the agent parses
(`os.environ.get` of `CONFIG_JSON` with default `\x7b\x7d`). -/
def cfgString (env : Env) : String := env.config_json.getD "\x7b\x7d"

/-- A `{"status": "error", "error": msg}` stderr object. -/
def errOutput (msg : String) : Json :=
  .obj [("status", .str "error"), ("error", .str msg)]

/-- The success object printed to stdout. -/
def okOutput (file : String) : Json :=
  .obj [("status", .str "ok"),
        ("metrics", .obj [("logged", .num 1), ("file", .str file)]),
        ("notes", .str ("Metrics appended to " ++ file))]

/-- `config.get` of `metrics` with an empty-dict default: defined
only when the parsed config
is a dict; on any other value `.get` raises an uncaught
`AttributeError`, modelled by `none`. -/
def configGet : Json → Option Json
  | .obj kvs => some ((getKeyL kvs "metrics").getD (.obj []))
  | _ => none

/-- The metrics dict literal of lines 47-58, in insertion order, given the
already-parsed `EXIT_CODE` and `ATTEMPT` integers. -/
def baseRecord (env : Env) (now : String) (ec att : Int) :
    List (String × Json) :=
  [("timestamp", .str (now ++ "Z")),
   ("job_id", .str (env.job_id.getD "unknown")),
   ("run_id", .str (env.run_id.getD "unknown")),
   ("hook", .str (env.hook.getD "unknown")),
   ("job_command", .str (env.job_command.getD "")),
   ("job_schedule", .str (env.job_schedule.getD "")),
   ("start_ts", .str (env.start_ts.getD "")),
   ("end_ts", .str (env.end_ts.getD "")),
   ("exit_code", .num (ec : Rat)),
   ("attempt", .num (att : Rat))]

/-- The record finally appended: the base dict, then `custom` when the
config value under `metrics` is truthy, then `duration_sec` when the
duration block produced one. -/
def finalRecord (env : Env) (now : String) (customVal : Json)
    (ec att : Int) (dur : Option Rat) : List (String × Json) :=
  let withCustom :=
    if customVal.truthy then baseRecord env now ec att ++ [("custom", customVal)]
    else baseRecord env now ec att
  match dur with
  | some q => withCustom ++ [("duration_sec", Json.num q)]
  | none => withCustom

/-- Effects of dying with an uncaught exception after `dir` records
whether the `mkdir` call had already succeeded. -/
def crashEffects (dir : Bool) : Effects := ⟨none, [], [], dir, []⟩

/-- Line-by-line embedding of `main()` of `src/agents/log-metrics.py`:
parse `CONFIG_JSON` (handled failure), require `STATE_DIR` (handled
failure), `mkdir -p` it (uncaught failure), build the record — parsing
`EXIT_CODE`/`ATTEMPT` with `int()` (uncaught failure) — attach `custom`
via `config.get` (uncaught `AttributeError` on non-dict configs), run the
duration block, then append one line to `metrics.jsonl` (handled failure)
and print the success object. -/
def run (env : Env) (w : World) : Effects :=
  match jsonLoads (cfgString env) with
  | .error e =>
    ⟨some 1, [], [errOutput ("Invalid CONFIG_JSON: " ++ e)], false, []⟩
  | .ok config =>
    match env.state_dir with
    | none =>
      ⟨some 1, [], [errOutput "STATE_DIR environment variable not set"],
        false, []⟩
    | some sd =>
      if sd == "" then
        ⟨some 1, [], [errOutput "STATE_DIR environment variable not set"],
          false, []⟩
      else
        match w.mkdirError with
        | some _ => crashEffects false
        | none =>
          match pyInt (env.exit_code.getD "-1"),
              pyInt (env.attempt.getD "1") with
          | some ec, some att =>
            match configGet config with
            | none => crashEffects true
            | some customVal =>
              match durationStep (env.start_ts.getD "") (env.end_ts.getD "") with
              | .typeErr => crashEffects true
              | .value dur =>
                let record := finalRecord env w.now customVal ec att dur
                let file := joinMetricsFile sd
                match w.writeError with
                | some m =>
                  ⟨some 1, [],
                    [errOutput ("Failed to write metrics: " ++ m)], true, []⟩
                | none =>
                  ⟨some 0, [okOutput file], [], true, [Json.obj record]⟩
          | _, _ => crashEffects true

/-- A capture-time value and a fault-free filesystem. -/
def wOk : World := ⟨"2024-06-01T00:00:00", none, none⟩

/-- Fault-free `mkdir`, but opening/writing `metrics.jsonl` raises an
`IOError` with message `disk full`. -/
def wBadWrite : World := ⟨"2024-06-01T00:00:00", none, some "disk full"⟩

/-- Valid environment whose `START_TS` parses timezone-aware and whose
`END_TS` parses naive. -/
def envMixedTs : Env :=
  ⟨none, some "s", none, none, none, none, none,
    some "2024-01-01T00:00:00Z", some "2024-01-01T00:00:10",
    none, none⟩

/-- Valid environment with two aware timestamps ten seconds apart. -/
def envDurOk : Env :=
  ⟨none, some "s", none, none, none, none, none,
    some "2024-01-01T00:00:00Z", some "2024-01-01T00:00:10Z", none, none⟩

/-- Environment whose config carries a truthy non-mapping `metrics`
value (`CONFIG_JSON` = the JSON text for a dict mapping `metrics` to
`5`). -/
def envMetricsFive : Env :=
  ⟨some "\x7b\"metrics\":5\x7d", some "s", none, none, none, none, none,
    none, none, none, none⟩

/-- Environment whose config maps `metrics` to the dict `cpu_pct: 42`. -/
def envMetricsMap : Env :=
  ⟨some "\x7b\"metrics\":\x7b\"cpu_pct\":42\x7d\x7d", some "s", none, none,
    none, none, none, none, none, none, none⟩

/-- Environment with unparsable `CONFIG_JSON` and `STATE_DIR` unset. -/
def envBadConfig : Env :=
  ⟨some "not json", none, none, none, none, none, none, none, none, none,
    none⟩

/-- Environment with every variable unset. -/
def envNoStateDir : Env :=
  ⟨none, none, none, none, none, none, none, none, none, none, none⟩

/-- Valid environment with a non-integer `ATTEMPT`. -/
def envBadAttempt : Env :=
  ⟨none, some "s", none, none, none, none, none, none, none, none,
    some "abc"⟩

/-- Valid environment whose `CONFIG_JSON` is a JSON list. -/
def envListConfig : Env :=
  ⟨some "[1, 2]", some "s", none, none, none, none, none, none, none,
    none, none⟩

/-- The record `run envDurOk wOk` appends. -/
def recDurOk : List (String × Json) :=
  [("timestamp", .str "2024-06-01T00:00:00Z"),
   ("job_id", .str "unknown"),
   ("run_id", .str "unknown"),
   ("hook", .str "unknown"),
   ("job_command", .str ""),
   ("job_schedule", .str ""),
   ("start_ts", .str "2024-01-01T00:00:00Z"),
   ("end_ts", .str "2024-01-01T00:00:10Z"),
   ("exit_code", .num (-1)),
   ("attempt", .num 1),
   ("duration_sec", .num 10)]

/-- The record `run envMetricsMap wOk` appends. -/
def recMetricsMap : List (String × Json) :=
  [("timestamp", .str "2024-06-01T00:00:00Z"),
   ("job_id", .str "unknown"),
   ("run_id", .str "unknown"),
   ("hook", .str "unknown"),
   ("job_command", .str ""),
   ("job_schedule", .str ""),
   ("start_ts", .str ""),
   ("end_ts", .str ""),
   ("exit_code", .num (-1)),
   ("attempt", .num 1),
   ("custom", .obj [("cpu_pct", .num 42)])]

/-- One invocation against the shared `metrics.jsonl` contents: the file
is opened in append mode, so the previous contents stay in place and the
appended lines (if any) go at the end. -/
def runAppendFile (file : List Json) (p : Env × World) : List Json :=
  file ++ (run p.1 p.2).appended

/-- Two successful invocations, used to instantiate the append-only
property. -/
def fileRuns : List (Env × World) := [(envDurOk, wOk), (envMetricsMap, wOk)]

/-- Pre-existing contents of `metrics.jsonl`. -/
def seedFile : List Json := [Json.null]

theorem getKeyL_append (l1 l2 : List (String × Json)) (k : String) :
    getKeyL (l1 ++ l2) k =
      match getKeyL l1 k with
      | some v => some v
      | none => getKeyL l2 k := by
  induction l1 with
  | nil => simp [getKeyL]
  | cons p rest ih =>
    obtain ⟨k2, v⟩ := p
    simp only [List.cons_append, getKeyL]
    by_cases h : (k2 == k) = true
    · simp [h]
    · simp only [Bool.not_eq_true] at h
      simp [h, ih]

theorem finalRecord_duration (env : Env) (now : String) (cv : Json)
    (ec att : Int) (dur : Option Rat) :
    getKeyL (finalRecord env now cv ec att dur) "duration_sec" =
      dur.map Json.num := by
  cases dur <;> cases h : cv.truthy <;>
    simp [finalRecord, baseRecord, h, getKeyL, getKeyL_append]

theorem finalRecord_custom (env : Env) (now : String) (cv : Json)
    (ec att : Int) (dur : Option Rat) :
    getKeyL (finalRecord env now cv ec att dur) "custom" =
      (if cv.truthy then some cv else none) := by
  cases dur <;> cases h : cv.truthy <;>
    simp [finalRecord, baseRecord, h, getKeyL, getKeyL_append]

theorem run_success (env : Env) (w : World) (config customVal : Json)
    (sd : String) (ec att : Int) (dur : Option Rat)
    (hc : jsonLoads (cfgString env) = .ok config)
    (hsd : env.state_dir = some sd) (hsde : (sd == "") = false)
    (hmk : w.mkdirError = none)
    (hec : pyInt (env.exit_code.getD "-1") = some ec)
    (hat : pyInt (env.attempt.getD "1") = some att)
    (hcg : configGet config = some customVal)
    (hdur : durationStep (env.start_ts.getD "") (env.end_ts.getD "") =
      DurationOutcome.value dur)
    (hw : w.writeError = none) :
    run env w = ⟨some 0, [okOutput (joinMetricsFile sd)], [], true,
      [Json.obj (finalRecord env w.now customVal ec att dur)]⟩ := by
  simp only [run, hc, hsd, hsde, hmk, hec, hat, hcg, hdur, hw,
    Bool.false_eq_true, if_false]

theorem run_cases (env : Env) (w : World) :
    (∃ config customVal sd ec att dur,
      jsonLoads (cfgString env) = .ok config ∧
      env.state_dir = some sd ∧ (sd == "") = false ∧
      w.mkdirError = none ∧
      pyInt (env.exit_code.getD "-1") = some ec ∧
      pyInt (env.attempt.getD "1") = some att ∧
      configGet config = some customVal ∧
      durationStep (env.start_ts.getD "") (env.end_ts.getD "") =
        DurationOutcome.value dur ∧
      w.writeError = none ∧
      run env w = ⟨some 0, [okOutput (joinMetricsFile sd)], [], true,
        [Json.obj (finalRecord env w.now customVal ec att dur)]⟩) ∨
    ((run env w).appended = [] ∧ (run env w).exit ≠ some 0) := by
  cases hc : jsonLoads (cfgString env) with
  | error e => right; simp [run, hc]
  | ok config =>
    cases hsd : env.state_dir with
    | none => right; simp [run, hc, hsd]
    | some sd =>
      by_cases hsde : (sd == "") = true
      · right; simp [run, hc, hsd, hsde]
      · rw [Bool.not_eq_true] at hsde
        cases hmk : w.mkdirError with
        | some m => right; simp [run, hc, hsd, hsde, hmk, crashEffects]
        | none =>
          cases hec : pyInt (env.exit_code.getD "-1") with
          | none => right; simp [run, hc, hsd, hsde, hmk, hec, crashEffects]
          | some ec =>
            cases hat : pyInt (env.attempt.getD "1") with
            | none =>
              right; simp [run, hc, hsd, hsde, hmk, hec, hat, crashEffects]
            | some att =>
              cases hcg : configGet config with
              | none =>
                right
                simp [run, hc, hsd, hsde, hmk, hec, hat, hcg, crashEffects]
              | some customVal =>
                cases hdur : durationStep (env.start_ts.getD "")
                    (env.end_ts.getD "") with
                | typeErr =>
                  right
                  simp [run, hc, hsd, hsde, hmk, hec, hat, hcg, hdur,
                    crashEffects]
                | value dur =>
                  cases hw : w.writeError with
                  | some m =>
                    right
                    simp [run, hc, hsd, hsde, hmk, hec, hat, hcg, hdur, hw]
                  | none =>
                    left
                    exact ⟨config, customVal, sd, ec, att, dur, rfl, rfl,
                      hsde, rfl, rfl, rfl, hcg, rfl, rfl,
                      run_success env w config customVal sd ec att dur hc
                        hsd hsde hmk hec hat hcg hdur hw⟩

theorem run_record_inv (env : Env) (w : World) (r : Json)
    (h : (run env w).appended = [r]) :
    ∃ config customVal sd ec att dur,
      jsonLoads (cfgString env) = .ok config ∧
      configGet config = some customVal ∧
      env.state_dir = some sd ∧
      pyInt (env.exit_code.getD "-1") = some ec ∧
      pyInt (env.attempt.getD "1") = some att ∧
      durationStep (env.start_ts.getD "") (env.end_ts.getD "") =
        DurationOutcome.value dur ∧
      (run env w).exit = some 0 ∧
      r = Json.obj (finalRecord env w.now customVal ec att dur) := by
  rcases run_cases env w with
    ⟨config, customVal, sd, ec, att, dur, hc, hsd, _, _, hec, hat, hcg,
      hdur, _, heq⟩ | ⟨hnil, _⟩
  · rw [heq] at h
    simp only [List.cons.injEq, and_true] at h
    exact ⟨config, customVal, sd, ec, att, dur, hc, hcg, hsd, hec, hat,
      hdur, by rw [heq], h.symm⟩
  · rw [hnil] at h
    cases h

theorem run_exit_zero (env : Env) (w : World)
    (h : (run env w).exit = some 0) :
    ∃ r, (run env w).appended = [r] := by
  rcases run_cases env w with
    ⟨_, _, _, _, _, _, _, _, _, _, _, _, _, _, _, heq⟩ | ⟨_, hne⟩
  · exact ⟨_, by rw [heq]⟩
  · exact absurd h hne

theorem configGet_obj (j c : Json) (h : configGet j = some c) :
    ∃ kvs, j = Json.obj kvs ∧
      c = (getKeyL kvs "metrics").getD (Json.obj []) := by
  cases j <;> simp [configGet] at h
  exact ⟨_, rfl, h.symm⟩


theorem durationStep_parse_fail (s e : String)
    (h : fromisoformat (replaceZ s) = none ∨
         fromisoformat (replaceZ e) = none) :
    durationStep s e = DurationOutcome.value none := by
  unfold durationStep
  by_cases hcond : (s != "" && e != "") = true
  · rw [if_pos hcond]
    rcases h with h | h
    · rw [h]
    · cases hps : fromisoformat (replaceZ s) with
      | none => rfl
      | some ds => rw [h]
  · rw [if_neg hcond]

theorem durationStep_eq_of_parse (s e : String) (ds de : PyDateTime)
    (hcond : (s != "" && e != "") = true)
    (hps : fromisoformat (replaceZ s) = some ds)
    (hpe : fromisoformat (replaceZ e) = some de) :
    durationStep s e =
      match subSeconds de ds with
      | some q => DurationOutcome.value (some q)
      | none => DurationOutcome.typeErr := by
  unfold durationStep
  rw [if_pos hcond, hps, hpe]

theorem durationStep_isSome (s e : String) (dur : Option Rat)
    (h : durationStep s e = DurationOutcome.value dur) :
    (dur.isSome = true ↔ s ≠ "" ∧ e ≠ "" ∧
      (fromisoformat (replaceZ s)).isSome = true ∧
      (fromisoformat (replaceZ e)).isSome = true) := by
  by_cases hs : s = ""
  · unfold durationStep at h
    simp [hs] at h
    simp [← h, hs]
  · by_cases he : e = ""
    · unfold durationStep at h
      simp [hs, he] at h
      simp [← h, he]
    · have hcond : (s != "" && e != "") = true := by simp [hs, he]
      cases hps : fromisoformat (replaceZ s) with
      | none =>
        rw [durationStep_parse_fail s e (Or.inl hps)] at h
        simp at h
        simp [← h, hps]
      | some ds =>
        cases hpe : fromisoformat (replaceZ e) with
        | none =>
          rw [durationStep_parse_fail s e (Or.inr hpe)] at h
          simp at h
          simp [← h, hpe]
        | some de =>
          rw [durationStep_eq_of_parse s e ds de hcond hps hpe] at h
          cases hsub : subSeconds de ds with
          | none => rw [hsub] at h; cases h
          | some q =>
            rw [hsub] at h
            simp at h
            simp [← h, hs, he, hps, hpe]

theorem durationStep_some (s e : String) (dur : Option Rat)
    (ds de : PyDateTime)
    (h : durationStep s e = DurationOutcome.value dur)
    (hps : fromisoformat (replaceZ s) = some ds)
    (hpe : fromisoformat (replaceZ e) = some de) :
    dur = subSeconds de ds := by
  by_cases hs : s = ""
  · rw [hs] at hps
    have hz : fromisoformat (replaceZ "") = none := rfl
    rw [hz] at hps
    cases hps
  · by_cases he : e = ""
    · rw [he] at hpe
      have hz : fromisoformat (replaceZ "") = none := rfl
      rw [hz] at hpe
      cases hpe
    · have hcond : (s != "" && e != "") = true := by simp [hs, he]
      rw [durationStep_eq_of_parse s e ds de hcond hps hpe] at h
      cases hsub : subSeconds de ds with
      | none => rw [hsub] at h; cases h
      | some q =>
        rw [hsub] at h
        simp at h
        rw [← h]

theorem run_success_of_valid (env : Env) (w : World) (sd : String)
    (dur : Option Rat)
    (hc : env.config_json = none ∨
      ∃ kvs, jsonLoads (cfgString env) = .ok (Json.obj kvs))
    (hsd : env.state_dir = some sd) (hsde : sd ≠ "")
    (hec : env.exit_code = none ∨
      ∃ n, pyInt (env.exit_code.getD "-1") = some n)
    (hat : env.attempt = none ∨ ∃ n, pyInt (env.attempt.getD "1") = some n)
    (hmk : w.mkdirError = none) (hw : w.writeError = none)
    (hdur : durationStep (env.start_ts.getD "") (env.end_ts.getD "") =
      DurationOutcome.value dur) :
    ∃ kvs ec att, run env w =
      ⟨some 0, [okOutput (joinMetricsFile sd)], [], true,
        [Json.obj (finalRecord env w.now
          ((getKeyL kvs "metrics").getD (Json.obj [])) ec att dur)]⟩ := by
  obtain ⟨kvs, hkvs⟩ :
      ∃ kvs, jsonLoads (cfgString env) = .ok (Json.obj kvs) := by
    rcases hc with h | h
    · have hs : cfgString env = "\x7b\x7d" := by simp [cfgString, h]
      exact ⟨[], by rw [hs]; rfl⟩
    · exact h
  obtain ⟨ec, hec2⟩ : ∃ n, pyInt (env.exit_code.getD "-1") = some n := by
    rcases hec with h | h
    · exact ⟨-1, by rw [h]; rfl⟩
    · exact h
  obtain ⟨att, hat2⟩ : ∃ n, pyInt (env.attempt.getD "1") = some n := by
    rcases hat with h | h
    · exact ⟨1, by rw [h]; rfl⟩
    · exact h
  exact ⟨kvs, ec, att,
    run_success env w (Json.obj kvs) _ sd ec att dur hkvs hsd
      (by simp [hsde]) hmk hec2 hat2 rfl hdur hw⟩

/-- Claim C4: a `CONFIG_JSON` string that fails to parse makes the agent
print the single object `status: error, error: Invalid CONFIG_JSON:`
followed by the parser message to stderr and exit with status 1, with no
directory created, nothing appended to `metrics.jsonl`, and nothing on
stdout — before the `STATE_DIR` check, whatever `STATE_DIR` is. -/
theorem claim4_invalid_config (env : Env) (w : World) (s e : String)
    (h1 : env.config_json = some s)
    (h2 : jsonLoads s = .error e) :
    run env w =
      ⟨some 1, [], [errOutput ("Invalid CONFIG_JSON: " ++ e)],
        false, []⟩ := by
  have hc : cfgString env = s := by simp [cfgString, h1]
  simp only [run, hc, h2]

theorem claim4_invalid_config_witness :
    run envBadConfig wOk =
      ⟨some 1, [],
        [errOutput ("Invalid CONFIG_JSON: " ++ "Expecting value")],
        false, []⟩ :=
  claim4_invalid_config envBadConfig wOk "not json" "Expecting value"
    rfl rfl

/-- Claim C5: with a valid (or unset) `CONFIG_JSON` and `STATE_DIR` unset
or empty, the agent prints exactly the `STATE_DIR environment variable
not set` error object to stderr, exits with status 1, creates no
directory and writes no file. -/
theorem claim5_missing_statedir (env : Env) (w : World)
    (hc : env.config_json = none ∨ ∃ j, jsonLoads (cfgString env) = .ok j)
    (hsd : env.state_dir = none ∨ env.state_dir = some "") :
    run env w = ⟨some 1, [],
      [errOutput "STATE_DIR environment variable not set"], false, []⟩ := by
  obtain ⟨j, hj⟩ : ∃ j, jsonLoads (cfgString env) = .ok j := by
    rcases hc with h | h
    · have hs : cfgString env = "\x7b\x7d" := by simp [cfgString, h]
      exact ⟨.obj [], by rw [hs]; rfl⟩
    · exact h
  rcases hsd with h | h
  · simp only [run, hj, h]
  · simp only [run, hj, h]
    rfl

theorem claim5_missing_statedir_witness :
    run envNoStateDir wOk = ⟨some 1, [],
      [errOutput "STATE_DIR environment variable not set"], false, []⟩ :=
  claim5_missing_statedir envNoStateDir wOk (Or.inl rfl) (Or.inl rfl)

/-- Claim C6: with valid `CONFIG_JSON` and `STATE_DIR`, a non-integer
`EXIT_CODE` or `ATTEMPT` makes `int()` raise an uncaught exception: the
process dies with a non-zero status (`exit = none` in the model), prints
no structured error object, and appends no record. -/
theorem claim6_bad_int (env : Env) (w : World) (config : Json)
    (hc : jsonLoads (cfgString env) = .ok config)
    (sd : String) (hsd : env.state_dir = some sd) (hsde : sd ≠ "")
    (hmk : w.mkdirError = none)
    (hbad : pyInt (env.exit_code.getD "-1") = none ∨
            pyInt (env.attempt.getD "1") = none) :
    run env w = crashEffects true := by
  have hsde2 : (sd == "") = false := by simp [hsde]
  rcases hbad with h | h
  · cases hat : pyInt (env.attempt.getD "1") <;>
      simp only [run, hc, hsd, hsde2, hmk, h, hat, Bool.false_eq_true,
        if_false]
  · cases hec : pyInt (env.exit_code.getD "-1") <;>
      simp only [run, hc, hsd, hsde2, hmk, h, hec, Bool.false_eq_true,
        if_false]

theorem claim6_bad_int_witness :
    run envBadAttempt wOk = crashEffects true :=
  claim6_bad_int envBadAttempt wOk (.obj []) rfl "s" rfl (by decide)
    rfl (Or.inr rfl)

/-- Claim C9: when `CONFIG_JSON` parses to a non-object and `STATE_DIR`
is valid, `config.get` raises an uncaught `AttributeError`: no structured
error, no record, non-zero exit — but the `STATE_DIR` directory has
already been created by the earlier `mkdir`. -/
theorem claim9_config_not_object (env : Env) (w : World) (config : Json)
    (hc : jsonLoads (cfgString env) = .ok config)
    (hobj : ∀ kvs, config ≠ Json.obj kvs)
    (sd : String) (hsd : env.state_dir = some sd) (hsde : sd ≠ "")
    (hmk : w.mkdirError = none) :
    run env w = crashEffects true := by
  have hsde2 : (sd == "") = false := by simp [hsde]
  have hcg : configGet config = none := by
    cases config <;> first | rfl | exact absurd rfl (hobj _)
  cases hec : pyInt (env.exit_code.getD "-1") with
  | none =>
    cases hat : pyInt (env.attempt.getD "1") <;>
      simp only [run, hc, hsd, hsde2, hmk, hec, hat, Bool.false_eq_true,
        if_false]
  | some ec =>
    cases hat : pyInt (env.attempt.getD "1") <;>
      simp only [run, hc, hsd, hsde2, hmk, hec, hat, hcg,
        Bool.false_eq_true, if_false]

theorem claim9_config_not_object_witness :
    run envListConfig wOk = crashEffects true :=
  claim9_config_not_object envListConfig wOk
    (.arr [Json.num 1, Json.num 2]) rfl (fun _ h => Json.noConfusion h)
    "s" rfl (by decide) rfl

/-- Claim C10: on the handled write-failure path the agent reports
`Failed to write metrics:` with the I/O message on stderr and exits 1,
while the `STATE_DIR` directory created by the earlier `mkdir` persists
(`dirCreated = true`) and no record is appended. -/
theorem claim10_write_failure (env : Env) (w : World)
    (config customVal : Json) (sd : String) (ec att : Int)
    (dur : Option Rat) (msg : String)
    (hc : jsonLoads (cfgString env) = .ok config)
    (hsd : env.state_dir = some sd) (hsde : sd ≠ "")
    (hmk : w.mkdirError = none)
    (hec : pyInt (env.exit_code.getD "-1") = some ec)
    (hat : pyInt (env.attempt.getD "1") = some att)
    (hcg : configGet config = some customVal)
    (hdur : durationStep (env.start_ts.getD "") (env.end_ts.getD "") =
      DurationOutcome.value dur)
    (hw : w.writeError = some msg) :
    run env w = ⟨some 1, [],
      [errOutput ("Failed to write metrics: " ++ msg)], true, []⟩ := by
  have hsde2 : (sd == "") = false := by simp [hsde]
  simp only [run, hc, hsd, hsde2, hmk, hec, hat, hcg, hdur, hw,
    Bool.false_eq_true, if_false]

theorem claim10_write_failure_witness :
    run envDurOk wBadWrite = ⟨some 1, [],
      [errOutput ("Failed to write metrics: " ++ "disk full")],
      true, []⟩ :=
  claim10_write_failure envDurOk wBadWrite (.obj []) (.obj []) "s"
    (-1) 1 (some 10) "disk full" (by rfl) (by rfl) (by decide) (by rfl)
    (by rfl) (by rfl) (by rfl) (by rfl) (by rfl)

/-- Counterexample to claim C1 as stated: `envMixedTs` satisfies every
hypothesis of the claim (`CONFIG_JSON` unset, `STATE_DIR` set and
non-empty, `EXIT_CODE`/`ATTEMPT` unset, filesystem operations succeed),
yet the run dies on the uncaught `TypeError` of subtracting a naive
`END_TS` from an aware `START_TS`: nothing is appended, nothing is
printed to stdout, and the exit status is not 0. -/
theorem claim1_counterexample :
    envMixedTs.config_json = none ∧
    envMixedTs.state_dir = some "s" ∧
    envMixedTs.exit_code = none ∧ envMixedTs.attempt = none ∧
    wOk.mkdirError = none ∧ wOk.writeError = none ∧
    (run envMixedTs wOk).exit ≠ some 0 ∧
    (run envMixedTs wOk).appended = [] ∧
    (run envMixedTs wOk).out = [] :=
  ⟨rfl, rfl, rfl, rfl, rfl, rfl, by decide, rfl, rfl⟩

/-- Claim C1 (amended): when additionally the duration block does not hit
the uncaught naive/aware `TypeError`, a valid environment makes the agent
append exactly one record to `STATE_DIR/metrics.jsonl`, print exactly the
single success object `status: ok, metrics: (logged: 1, file: path),
notes: string` on stdout, and exit with status 0. -/
theorem claim1_success (env : Env) (w : World) (sd : String)
    (hc : env.config_json = none ∨
      ∃ kvs, jsonLoads (cfgString env) = .ok (Json.obj kvs))
    (hsd : env.state_dir = some sd) (hsde : sd ≠ "")
    (hec : env.exit_code = none ∨
      ∃ n, pyInt (env.exit_code.getD "-1") = some n)
    (hat : env.attempt = none ∨ ∃ n, pyInt (env.attempt.getD "1") = some n)
    (hmk : w.mkdirError = none) (hw : w.writeError = none)
    (hdur : durationStep (env.start_ts.getD "") (env.end_ts.getD "") ≠
      DurationOutcome.typeErr) :
    ∃ r, run env w =
      ⟨some 0, [okOutput (joinMetricsFile sd)], [], true, [r]⟩ := by
  cases hd : durationStep (env.start_ts.getD "") (env.end_ts.getD "") with
  | typeErr => exact absurd hd hdur
  | value dur =>
    obtain ⟨kvs, ec, att, heq⟩ :=
      run_success_of_valid env w sd dur hc hsd hsde hec hat hmk hw hd
    exact ⟨_, heq⟩

theorem claim1_success_witness :
    ∃ r, run envDurOk wOk =
      ⟨some 0, [okOutput (joinMetricsFile "s")], [], true, [r]⟩ :=
  claim1_success envDurOk wOk "s" (Or.inl rfl) rfl (by decide)
    (Or.inl rfl) (Or.inl rfl) rfl rfl (by decide)

/-- Claim C2: a record is appended with a `duration_sec` key exactly when
both timestamp strings are non-empty and both parse (after replacing `Z`
by `+00:00`); when both parse, the stored value is the parsed end minus
the parsed start in seconds; and when either side fails to parse, an
otherwise valid invocation still appends its record — without the key —
and exits 0. -/
theorem claim2_duration :
    (∀ (env : Env) (w : World) (r : Json), (run env w).appended = [r] →
      ((r.hasKey "duration_sec" = true ↔
         (env.start_ts.getD "" ≠ "" ∧ env.end_ts.getD "" ≠ "" ∧
          (fromisoformat (replaceZ (env.start_ts.getD ""))).isSome = true ∧
          (fromisoformat (replaceZ (env.end_ts.getD ""))).isSome = true)) ∧
       (∀ ds de,
          fromisoformat (replaceZ (env.start_ts.getD "")) = some ds →
          fromisoformat (replaceZ (env.end_ts.getD "")) = some de →
          r.getKey "duration_sec" = (subSeconds de ds).map Json.num) ∧
       (run env w).exit = some 0)) ∧
    (∀ (env : Env) (w : World) (sd : String),
      (env.config_json = none ∨
        ∃ kvs, jsonLoads (cfgString env) = .ok (Json.obj kvs)) →
      env.state_dir = some sd → sd ≠ "" →
      (env.exit_code = none ∨
        ∃ n, pyInt (env.exit_code.getD "-1") = some n) →
      (env.attempt = none ∨ ∃ n, pyInt (env.attempt.getD "1") = some n) →
      w.mkdirError = none → w.writeError = none →
      (fromisoformat (replaceZ (env.start_ts.getD "")) = none ∨
       fromisoformat (replaceZ (env.end_ts.getD "")) = none) →
      ∃ r, run env w =
        ⟨some 0, [okOutput (joinMetricsFile sd)], [], true, [r]⟩ ∧
        r.hasKey "duration_sec" = false) := by
  constructor
  · intro env w r h
    obtain ⟨config, customVal, sd, ec, att, dur, hc, hcg, hsd, hec, hat,
      hdur, hexit, hr⟩ := run_record_inv env w r h
    have hkey : r.getKey "duration_sec" = dur.map Json.num := by
      rw [hr]
      exact finalRecord_duration env w.now customVal ec att dur
    refine ⟨?_, ?_, hexit⟩
    · have hhk : r.hasKey "duration_sec" = dur.isSome := by
        rw [Json.hasKey, hkey]
        cases dur <;> rfl
      rw [hhk]
      exact durationStep_isSome _ _ _ hdur
    · intro ds de hps hpe
      rw [hkey, durationStep_some _ _ _ ds de hdur hps hpe]
  · intro env w sd hc hsd hsde hec hat hmk hw hfail
    have hd := durationStep_parse_fail (env.start_ts.getD "")
      (env.end_ts.getD "") hfail
    obtain ⟨kvs, ec, att, heq⟩ :=
      run_success_of_valid env w sd none hc hsd hsde hec hat hmk hw hd
    refine ⟨_, heq, ?_⟩
    rw [Json.hasKey]
    have hdk := finalRecord_duration env w.now
      ((getKeyL kvs "metrics").getD (Json.obj [])) ec att none
    rw [show Json.getKey (Json.obj (finalRecord env w.now
      ((getKeyL kvs "metrics").getD (Json.obj [])) ec att none))
      "duration_sec" = getKeyL (finalRecord env w.now
      ((getKeyL kvs "metrics").getD (Json.obj [])) ec att none)
      "duration_sec" from rfl, hdk]
    rfl

theorem claim2_duration_witness :
    Json.getKey (Json.obj recDurOk) "duration_sec" =
      some (Json.num 10) := by
  have h := (claim2_duration.1 envDurOk wOk (Json.obj recDurOk)
    (by rfl)).2.1 ⟨1704067200000000, some 0⟩ ⟨1704067210000000, some 0⟩
    (by rfl) (by rfl)
  exact h.trans (by rfl)

/-- Counterexample to claim C3 as stated: with the configuration mapping
`metrics` to the number `5` — not a mapping at all, so by the claim the
record should have no `custom` key — the run still succeeds and the
appended record carries `custom` equal to `5`, because the code only
tests Python truthiness of the `metrics` entry. -/
theorem claim3_counterexample :
    jsonLoads (cfgString envMetricsFive) =
      .ok (.obj [("metrics", Json.num 5)]) ∧
    (run envMetricsFive wOk).appended.map
      (fun r => r.getKey "custom") = [some (Json.num 5)] ∧
    (run envMetricsFive wOk).exit = some 0 :=
  ⟨rfl, rfl, rfl⟩

/-- Claim C3 (amended): in every appended record, `custom` is present if
and only if the parsed configuration object has a truthy value under
`metrics` (a non-empty mapping in particular, but any truthy JSON value
qualifies), and when present `custom` is that value verbatim; an absent
or empty `metrics` mapping yields no `custom` key. -/
theorem claim3_custom (env : Env) (w : World) (r : Json)
    (kvs : List (String × Json))
    (h : (run env w).appended = [r])
    (hc : jsonLoads (cfgString env) = .ok (Json.obj kvs)) :
    r.getKey "custom" =
      (if ((getKeyL kvs "metrics").getD (Json.obj [])).truthy then
        some ((getKeyL kvs "metrics").getD (Json.obj [])) else none) := by
  obtain ⟨config, customVal, sd, ec, att, dur, hc2, hcg, _, _, _, _, _,
    hr⟩ := run_record_inv env w r h
  rw [hc] at hc2
  injection hc2 with h2
  rw [← h2] at hcg
  have hcv : customVal = (getKeyL kvs "metrics").getD (Json.obj []) := by
    have := hcg
    simp only [configGet, Option.some.injEq] at this
    exact this.symm
  rw [hr, hcv]
  exact finalRecord_custom env w.now _ ec att dur

theorem claim3_custom_witness :
    Json.getKey (Json.obj recMetricsMap) "custom" =
      some (Json.obj [("cpu_pct", Json.num 42)]) := by
  have h := claim3_custom envMetricsMap wOk (Json.obj recMetricsMap)
    [("metrics", Json.obj [("cpu_pct", Json.num 42)])] (by rfl) (by rfl)
  exact h.trans (by rfl)

/-- Claim C8: every appended record carries the documented default for
each optional variable that is absent from the environment: `job_id`,
`run_id` and `hook` default to `unknown`; `job_command`, `job_schedule`,
`start_ts` and `end_ts` default to the empty string; `exit_code` defaults
to the integer `-1`; `attempt` defaults to the integer `1`. -/
theorem claim8_defaults (env : Env) (w : World) (r : Json)
    (h : (run env w).appended = [r]) :
    (env.job_id = none →
      r.getKey "job_id" = some (Json.str "unknown")) ∧
    (env.run_id = none →
      r.getKey "run_id" = some (Json.str "unknown")) ∧
    (env.hook = none → r.getKey "hook" = some (Json.str "unknown")) ∧
    (env.job_command = none →
      r.getKey "job_command" = some (Json.str "")) ∧
    (env.job_schedule = none →
      r.getKey "job_schedule" = some (Json.str "")) ∧
    (env.start_ts = none → r.getKey "start_ts" = some (Json.str "")) ∧
    (env.end_ts = none → r.getKey "end_ts" = some (Json.str "")) ∧
    (env.exit_code = none →
      r.getKey "exit_code" = some (Json.num (-1))) ∧
    (env.attempt = none → r.getKey "attempt" = some (Json.num 1)) := by
  obtain ⟨config, customVal, sd, ec, att, dur, hc, hcg, hsd, hec, hat,
    hdur, hexit, hr⟩ := run_record_inv env w r h
  subst hr
  refine ⟨?_, ?_, ?_, ?_, ?_, ?_, ?_, ?_, ?_⟩ <;> intro hnone
  · cases dur <;> cases ht : customVal.truthy <;>
      simp [finalRecord, baseRecord, Json.getKey, getKeyL, getKeyL_append,
        ht, hnone]
  · cases dur <;> cases ht : customVal.truthy <;>
      simp [finalRecord, baseRecord, Json.getKey, getKeyL, getKeyL_append,
        ht, hnone]
  · cases dur <;> cases ht : customVal.truthy <;>
      simp [finalRecord, baseRecord, Json.getKey, getKeyL, getKeyL_append,
        ht, hnone]
  · cases dur <;> cases ht : customVal.truthy <;>
      simp [finalRecord, baseRecord, Json.getKey, getKeyL, getKeyL_append,
        ht, hnone]
  · cases dur <;> cases ht : customVal.truthy <;>
      simp [finalRecord, baseRecord, Json.getKey, getKeyL, getKeyL_append,
        ht, hnone]
  · cases dur <;> cases ht : customVal.truthy <;>
      simp [finalRecord, baseRecord, Json.getKey, getKeyL, getKeyL_append,
        ht, hnone]
  · cases dur <;> cases ht : customVal.truthy <;>
      simp [finalRecord, baseRecord, Json.getKey, getKeyL, getKeyL_append,
        ht, hnone]
  · rw [hnone] at hec
    have h2 : some ((-1 : Int)) = some ec :=
      (rfl : pyInt (Option.getD none "-1") = some (-1)).symm.trans hec
    injection h2 with h3
    rw [← h3]
    cases dur <;> cases ht : customVal.truthy <;>
      simp [finalRecord, baseRecord, Json.getKey, getKeyL, getKeyL_append,
        ht]
  · rw [hnone] at hat
    have h2 : some ((1 : Int)) = some att :=
      (rfl : pyInt (Option.getD none "1") = some 1).symm.trans hat
    injection h2 with h3
    rw [← h3]
    cases dur <;> cases ht : customVal.truthy <;>
      simp [finalRecord, baseRecord, Json.getKey, getKeyL, getKeyL_append,
        ht]

theorem claim8_defaults_witness :
    Json.getKey (Json.obj recMetricsMap) "job_id" =
      some (Json.str "unknown") ∧
    Json.getKey (Json.obj recMetricsMap) "exit_code" =
      some (Json.num (-1)) ∧
    Json.getKey (Json.obj recMetricsMap) "attempt" =
      some (Json.num 1) := by
  have h := claim8_defaults envMetricsMap wOk (Json.obj recMetricsMap)
    (by rfl)
  exact ⟨h.1 rfl, h.2.2.2.2.2.2.2.1 rfl, h.2.2.2.2.2.2.2.2 rfl⟩

/-- Claim C7: invocations only ever extend the shared `metrics.jsonl`; a
sequence of `N` successful invocations appends exactly `N` lines and the
previous contents survive unchanged as a prefix of the file. -/
theorem claim7_append_only (file : List Json) (runs : List (Env × World))
    (h : ∀ p ∈ runs, (run p.1 p.2).exit = some 0) :
    (runs.foldl runAppendFile file).length = file.length + runs.length ∧
    (runs.foldl runAppendFile file).take file.length = file := by
  induction runs generalizing file with
  | nil => simp
  | cons p rest ih =>
    obtain ⟨r, hr⟩ :=
      run_exit_zero p.1 p.2 (h p (List.mem_cons_self p rest))
    have hrest : ∀ q ∈ rest, (run q.1 q.2).exit = some 0 :=
      fun q hq => h q (List.mem_cons_of_mem p hq)
    have hfold : (p :: rest).foldl runAppendFile file =
        rest.foldl runAppendFile (file ++ [r]) := by
      simp [List.foldl_cons, runAppendFile, hr]
    obtain ⟨ih1, ih2⟩ := ih (file ++ [r]) hrest
    constructor
    · rw [hfold, ih1]
      simp
      omega
    · rw [hfold]
      have h2 : (rest.foldl runAppendFile (file ++ [r])).take
          (file.length + 1) = file ++ [r] := by
        simpa using ih2
      have h3 : (rest.foldl runAppendFile (file ++ [r])).take file.length
          = ((rest.foldl runAppendFile (file ++ [r])).take
              (file.length + 1)).take file.length := by
        rw [List.take_take]
        congr 1
        omega
      rw [h3, h2]
      exact List.take_left file [r]

theorem claim7_append_only_witness :
    (fileRuns.foldl runAppendFile seedFile).length =
      seedFile.length + fileRuns.length :=
  (claim7_append_only seedFile fileRuns (by decide)).1
